import Mathlib

/-!
Shallow embedding of the training / evaluation core of the
orientation-specific CheXNet repository (src/model.py, src/eval_model.py).

External collaborators (the dataset layer, the torchvision network, sklearn's
metric computations, the filesystem) are modelled as oracle functions and
boolean fields; the control flow, state updates and arithmetic of the two
source files are translated directly.
-/

namespace Chexnet

/-- eval_model.py line 13: the fixed 3-class label set used in multiclass
(orientation) mode. -/
def ORIENTATION : List String := ["AP", "PA", "0"]

/-- eval_model.py lines 118-132: the fixed list of clinical-finding column
names against which truth-table columns are filtered in multi-label mode. -/
def chexpertLabels : List String :=
  ["No Finding", "Enlarged Cardiomediastinum", "Cardiomegaly", "Lung Opacity",
   "Lung Lesion", "Edema", "Consolidation", "Pneumonia", "Atelectasis",
   "Pneumothorax", "Pleural Effusion", "Pleural Other", "Fracture",
   "Support Devices"]

/-- eval_model.py line 31: predictions are computed in batches of 16. -/
def BATCH_SIZE : Nat := 16

/-- The evaluation dataset collaborator: sample count, the identifier column
(dataset.df.index), the dataset's label list (dataset.PRED_LABEL), the model's
output vectors (probs) and the ground-truth values (true_labels). -/
structure EvalDataset where
  size : Nat
  idOf : Nat → String
  predLabels : List String
  outDim : Nat
  probs : Nat → Nat → ℚ
  trueVal : Nat → Nat → ℚ

/-- One row of pred_df / true_df: an Image Index plus per-label values. -/
structure Record where
  imageIndex : String
  vals : List ℚ
deriving DecidableEq

/-- eval_model.py lines 76-96, prediction row for sample n: the identifier
and, per label k, probs[j, k]; multiclass mode iterates k over the model's
output width, multi-label mode over len(dataset.PRED_LABEL). -/
def predRow (ds : EvalDataset) (multiclass : Bool) (n : Nat) : Record :=
  { imageIndex := ds.idOf n,
    vals :=
      if multiclass then (List.range ds.outDim).map (fun k => ds.probs n k)
      else (List.range ds.predLabels.length).map (fun k => ds.probs n k) }

/-- eval_model.py lines 76-96, truth row for sample n: in multiclass mode the
class index true_labels[j] is binarized against classes [0, 1, 2]
(label_binarize), in multi-label mode the binary label vector is kept as is. -/
def trueRow (ds : EvalDataset) (multiclass : Bool) (n : Nat) : Record :=
  { imageIndex := ds.idOf n,
    vals :=
      if multiclass then
        (List.range ds.outDim).map (fun k => if ds.trueVal n 0 = (k : ℚ) then 1 else 0)
      else (List.range ds.predLabels.length).map (fun k => ds.trueVal n k) }

/-- Number of batches the dataloader yields: ceil(size / bs). -/
def numBatches (size bs : Nat) : Nat := (size + bs - 1) / bs

/-- Length of batch i: bs, except that the final batch may be smaller. -/
def batchLen (size bs i : Nat) : Nat := min bs (size - bs * i)

/-- eval_model.py lines 56-81: the dataset indices visited by the batched
prediction pass, in order; row (i, j) reads dataset.df.index[BATCH_SIZE*i+j]. -/
def batchedIdx (size : Nat) : List Nat :=
  (List.range (numBatches size BATCH_SIZE)).flatMap
    (fun i => (List.range (batchLen size BATCH_SIZE i)).map (fun j => BATCH_SIZE * i + j))

/-- The prediction records produced by the batched pass, in order. -/
def evalPreds (ds : EvalDataset) (multiclass : Bool) : List Record :=
  (batchedIdx ds.size).map (predRow ds multiclass)

/-- The ground-truth records produced by the batched pass, in order. -/
def evalTruths (ds : EvalDataset) (multiclass : Bool) : List Record :=
  (batchedIdx ds.size).map (trueRow ds multiclass)

/-- The label columns of true_df (its first column, Image Index, is skipped by
the membership filters of eval_model.py lines 118-135); when the dataset is
empty no label column was ever created. -/
def trueColumns (ds : EvalDataset) (multiclass : Bool) : List String :=
  if ds.size = 0 then []
  else if multiclass then ORIENTATION.take ds.outDim
  else ds.predLabels

/-- eval_model.py lines 116-135: columns surviving the per-mode filter. -/
def keptColumns (ds : EvalDataset) (multiclass : Bool) : List String :=
  if multiclass then (trueColumns ds multiclass).filter (fun c => ORIENTATION.contains c)
  else (trueColumns ds multiclass).filter (fun c => chexpertLabels.contains c)

/-- eval_model.py lines 141-149: the auc branch presets NaN, attempts the
sklearn computation inside try/except, and always appends the row; a failed
computation (score c = none) leaves NaN in place and the loop continues. -/
def aucRows (cols : List String) (score : String → Option ℚ) :
    List (String × Option ℚ) :=
  cols.map (fun c => (c, score c))

/-- eval_model.py lines 150-160: the f1 branch calls sklm.f1_score once
OUTSIDE the try block (lines 152-153) before the guarded call, so a failing
per-label computation raises out of the whole aggregation; a succeeding one
records the defined value. -/
def f1Rows (cols : List String) (score : String → Option ℚ) :
    Except String (List (String × Option ℚ)) :=
  match cols with
  | [] => Except.ok []
  | c :: cs =>
    match score c with
    | none => Except.error c
    | some v =>
      match f1Rows cs score with
      | Except.ok rows => Except.ok ((c, some v) :: rows)
      | Except.error e => Except.error e

/-- Observable outcome of make_pred_multilabel: whether the invalid-metric
warning was printed, the two record sequences, whether preds.csv was written,
the metric rows computed by the column loop (none when the metric is
unrecognised), and the returned value (none models falling off the end of the
function, i.e. Python returning None). -/
structure EvalOutput where
  warned : Bool
  preds : List Record
  truths : List Record
  predsCsvWritten : Bool
  metricRows : Option (List (String × Option ℚ))
  retVal : Option (List Record × List (String × Option ℚ))
deriving DecidableEq

/-- eval_model.py make_pred_multilabel, lines 15-170.  The per-column sklearn
computation is the oracle `score` (none = the call raises).  An uncaught
exception in the f1 branch aborts the call (Except.error) before any file is
written. -/
def make_pred_multilabel (metric : String) (multiclass : Bool)
    (ds : EvalDataset) (score : String → Option ℚ) : Except String EvalOutput :=
  let warned := decide (metric ≠ "auc" ∧ metric ≠ "f1")
  let preds := evalPreds ds multiclass
  let truths := evalTruths ds multiclass
  if metric = "auc" then
    let rows := aucRows (keptColumns ds multiclass) score
    Except.ok { warned := warned, preds := preds, truths := truths,
                predsCsvWritten := true, metricRows := some rows,
                retVal := some (preds, rows) }
  else if metric = "f1" then
    match f1Rows (keptColumns ds multiclass) score with
    | Except.error c => Except.error c
    | Except.ok rows =>
      Except.ok { warned := warned, preds := preds, truths := truths,
                  predsCsvWritten := true, metricRows := some rows,
                  retVal := some (preds, rows) }
  else
    Except.ok { warned := warned, preds := preds, truths := truths,
                predsCsvWritten := true, metricRows := none, retVal := none }

/- ### Training loop (src/model.py, train_model) -/

/-- The NaN-aware mean used at model.py lines 198-199:
auc[~np.isnan(auc)].mean(); the mean of an empty slice is NaN (none). -/
def definedVals (rows : List (String × Option ℚ)) : List ℚ :=
  rows.filterMap (fun r => r.2)

def meanDefined (rows : List (String × Option ℚ)) : Option ℚ :=
  let vs := definedVals rows
  if vs.length = 0 then none else some (vs.sum / (vs.length : ℚ))

/-- IEEE comparison `x < b` where x may be NaN (none): NaN compares false. -/
def nanLt (x : Option ℚ) (b : ℚ) : Bool :=
  match x with
  | some v => decide (v < b)
  | none => false

/-- IEEE comparison `x > b` where x may be NaN (none): NaN compares false. -/
def nanGt (x : Option ℚ) (b : ℚ) : Bool :=
  match x with
  | some v => decide (b < v)
  | none => false

/-- Configuration for one call of train_model.  The dataloader/network
collaborators appear as oracles: trainLoss gives each epoch's mean training
loss, evalScore gives the per-epoch sklearn per-column metric outcomes fed to
make_pred_multilabel, modelAt / rngAt the model parameters and torch RNG
state snapshot stored by each epoch's checkpoint. -/
structure TrainConfig where
  numEpochs : Nat
  LR0 : ℚ
  weightDecay : ℚ
  multiclass : Bool
  valDs : EvalDataset
  evalScore : Nat → String → Option ℚ
  trainLoss : Nat → ℚ
  modelAt : Nat → Nat
  rngAt : Nat → Nat

/-- model.py lines 187-196: each epoch invokes make_pred_multilabel with
metric 'auc' on the validation data and keeps the returned metric table. -/
def epochEval (cfg : TrainConfig) (epoch : Nat) : List (String × Option ℚ) :=
  match make_pred_multilabel ("auc") cfg.multiclass cfg.valDs (cfg.evalScore epoch) with
  | Except.ok o =>
    match o.retVal with
    | some r => r.2
    | none => []
  | Except.error _ => []

/-- model.py lines 37-62: the state dict torch.save writes once per epoch to
results/checkpoint_<epoch>.  Field names follow the source keys; note the
caller (line 242) passes last_val_acc into the best_val_acc slot. -/
structure CheckpointState where
  model : Nat
  last_train_loss : ℚ
  best_val_acc : Option ℚ
  metricRows : List (String × Option ℚ)
  epoch : Nat
  best_epoch : Int
  rng_state : Nat
  LR : ℚ
  WD : ℚ
deriving DecidableEq

/-- Mutable loop state of train_model (model.py lines 99-104), together with
the checkpoints persisted so far. -/
structure TrainState where
  best_loss : ℚ
  best_val_acc : ℚ
  best_epoch : Int
  LR : ℚ
  checkpoints : List CheckpointState
deriving DecidableEq

/-- Per-epoch observables: the baseline best value before the epoch, the
epoch's val score, whether the decay branch ran, whether best tracking
updated, and the state after the epoch. -/
structure EpochTrace where
  epoch : Nat
  bestBefore : ℚ
  lastValAcc : Option ℚ
  decayed : Bool
  newBest : Bool
  bestEpochAfter : Int
  bestValAfter : ℚ
  lrAfter : ℚ
deriving DecidableEq

/-- One iteration of the epoch loop, model.py lines 116-274: train pass
(epoch_loss from the oracle), best-train-loss tracking (line 182), validation
metric table and its NaN-aware mean (lines 187-199), the decay branch
(lines 209-231), best tracking (lines 234-237), and the unconditional
checkpoint (line 242). -/
def epochStep (cfg : TrainConfig) (epoch : Nat) (s : TrainState) :
    TrainState × EpochTrace :=
  let epoch_loss := cfg.trainLoss epoch
  let best_loss := if epoch_loss < s.best_loss then epoch_loss else s.best_loss
  let rows := epochEval cfg epoch
  let last_val_acc := meanDefined rows
  let decayed := nanLt last_val_acc s.best_val_acc
  let LR1 := if decayed then s.LR / 10 else s.LR
  let newBest := nanGt last_val_acc s.best_val_acc
  let best_val_acc1 := if newBest then last_val_acc.getD s.best_val_acc else s.best_val_acc
  let best_epoch1 := if newBest then (epoch : Int) else s.best_epoch
  let ck : CheckpointState :=
    { model := cfg.modelAt epoch, last_train_loss := epoch_loss,
      best_val_acc := last_val_acc, metricRows := rows, epoch := epoch,
      best_epoch := best_epoch1, rng_state := cfg.rngAt epoch, LR := LR1,
      WD := cfg.weightDecay }
  ({ best_loss := best_loss, best_val_acc := best_val_acc1,
     best_epoch := best_epoch1, LR := LR1,
     checkpoints := s.checkpoints ++ [ck] },
   { epoch := epoch, bestBefore := s.best_val_acc, lastValAcc := last_val_acc,
     decayed := decayed, newBest := newBest, bestEpochAfter := best_epoch1,
     bestValAfter := best_val_acc1, lrAfter := LR1 })

/-- The epoch loop: for epoch in range(start, num_epochs + 1), with the early
break at model.py lines 269-274 when epoch - best_epoch >= 3.  The first
argument is the number of epochs still admitted by the range. -/
def loopAux (cfg : TrainConfig) : Nat → Nat → TrainState → TrainState × List EpochTrace
  | 0, _, s => (s, [])
  | n + 1, epoch, s =>
    let r := epochStep cfg epoch s
    if 3 ≤ (epoch : Int) - r.1.best_epoch then (r.1, [r.2])
    else
      let rest := loopAux cfg n (epoch + 1) r.1
      (rest.1, r.2 :: rest.2)

/-- Initial state, model.py lines 99-104. -/
def initState (cfg : TrainConfig) : TrainState :=
  { best_loss := 999999, best_val_acc := 0, best_epoch := -1, LR := cfg.LR0,
    checkpoints := [] }

/-- Result of train_model: final loop state, the per-epoch traces, and the
terminal reload of results/checkpoint_<best_epoch> (model.py lines 283-285);
loadOk records whether that file was ever written. -/
structure TrainResult where
  finalState : TrainState
  traces : List EpochTrace
  loadedEpoch : Int
  loadOk : Bool
deriving DecidableEq

def train_model (cfg : TrainConfig) : TrainResult :=
  let r := loopAux cfg cfg.numEpochs 1 (initState cfg)
  { finalState := r.1, traces := r.2, loadedEpoch := r.1.best_epoch,
    loadOk := r.1.checkpoints.any (fun ck => decide ((ck.epoch : Int) = r.1.best_epoch)) }

/- ### Experiment driver (src/model.py, train_cnn) -/

/-- model.py line 306: the admissible orientation selectors. -/
def validOrients : List String := ["all", "ap", "pa", "lat", "trainer"]

/-- Output head attached to the fresh densenet (model.py lines 474-479). -/
inductive HeadKind
  | sigmoid5
  | softmax3
deriving DecidableEq

/-- The network train_cnn hands to train_model: a freshly built densenet-121
with a replaced head, or the model object stored in a loaded checkpoint. -/
inductive ModelChoice
  | fresh (head : HeadKind)
  | stored (m : Nat)
deriving DecidableEq

/-- Loss criterion choice (model.py lines 488-491). -/
inductive CriterionKind
  | bce
  | crossEntropy
deriving DecidableEq

/-- The hyperparameters of the Adam optimizer built at model.py
lines 495-503. -/
structure AdamParams where
  lr : ℚ
  beta1 : ℚ
  beta2 : ℚ
  eps : ℚ
  weight_decay : ℚ
deriving DecidableEq

/-- Inputs of one train_cnn call.  Environment facts (whether results/
already exists, whether a GPU is available) and the loaded checkpoint are
fields; the dataset/loss/eval collaborators reuse the train_model oracles. -/
structure CnnConfig where
  orientFlag : String
  resultsExists : Bool
  useGpu : Bool
  checkpointFile : Option CheckpointState
  LR : ℚ
  WD : ℚ
  valDs : EvalDataset
  evalScore : Nat → String → Option ℚ
  trainLoss : Nat → ℚ
  modelAt : Nat → Nat
  rngAt : Nat → Nat

/-- How a train_cnn call ends: the two early returns (lines 306-318), the
ValueError for a missing GPU (line 467), or reaching the training loop. -/
inductive CnnOutcome
  | invalidOrient
  | resultsInWay
  | noGpu
  | started
deriving DecidableEq

/-- Observable trace of a train_cnn call: its outcome, whether an existing
results directory was removed, which work had been performed by the end
(dataset construction at lines 379-463, model/criterion/optimizer
construction at lines 469-503), and the training run when reached. -/
structure CnnRun where
  outcome : CnnOutcome
  resultsDirRemoved : Bool
  datasetsBuilt : Bool
  model : Option ModelChoice
  criterion : Option CriterionKind
  optimizer : Option AdamParams
  trainRun : Option TrainResult

/-- model.py line 321: training runs up to 100 epochs. -/
def NUM_EPOCHS : Nat := 100

/-- model.py train_cnn, lines 290-514.  The results-directory logic at lines
310-318 returns untouched when the directory exists; when it does not, the
rmtree call raises (swallowed by the bare except) and the directory is
created fresh, so an existing directory is never removed. -/
def train_cnn (cfg : CnnConfig) : CnnRun :=
  if ¬ validOrients.contains cfg.orientFlag then
    { outcome := CnnOutcome.invalidOrient, resultsDirRemoved := false,
      datasetsBuilt := false, model := none, criterion := none,
      optimizer := none, trainRun := none }
  else if cfg.resultsExists then
    { outcome := CnnOutcome.resultsInWay, resultsDirRemoved := false,
      datasetsBuilt := false, model := none, criterion := none,
      optimizer := none, trainRun := none }
  else if ¬ cfg.useGpu then
    { outcome := CnnOutcome.noGpu, resultsDirRemoved := false,
      datasetsBuilt := true, model := none, criterion := none,
      optimizer := none, trainRun := none }
  else
    let model :=
      match cfg.checkpointFile with
      | none =>
        if cfg.orientFlag ≠ "trainer" then ModelChoice.fresh HeadKind.sigmoid5
        else ModelChoice.fresh HeadKind.softmax3
      | some ck => ModelChoice.stored ck.model
    let crit :=
      if cfg.orientFlag ≠ "trainer" then CriterionKind.bce
      else CriterionKind.crossEntropy
    let opt : AdamParams :=
      { lr := cfg.LR, beta1 := 9 / 10, beta2 := 999 / 1000,
        eps := 1 / 100000000, weight_decay := cfg.WD }
    let tcfg : TrainConfig :=
      { numEpochs := NUM_EPOCHS, LR0 := cfg.LR, weightDecay := cfg.WD,
        multiclass := decide (cfg.orientFlag = "trainer"), valDs := cfg.valDs,
        evalScore := cfg.evalScore, trainLoss := cfg.trainLoss,
        modelAt := cfg.modelAt, rngAt := cfg.rngAt }
    { outcome := CnnOutcome.started, resultsDirRemoved := false,
      datasetsBuilt := true, model := some model, criterion := some crit,
      optimizer := some opt, trainRun := some (train_model tcfg) }

/-- Number of training epochs a train_cnn call actually executed. -/
def epochsRun (r : CnnRun) : Nat :=
  match r.trainRun with
  | none => 0
  | some tr => tr.traces.length



/- ### Concrete fixtures used to exercise the embedding -/

/-- A one-sample validation dataset with the single label column Edema. -/
def oneLabelDs : EvalDataset :=
  { size := 1, idOf := fun _ => "img0", predLabels := ["Edema"], outDim := 1,
    probs := fun _ _ => 1 / 2, trueVal := fun _ _ => 1 }

/-- A train_model configuration whose per-epoch validation score sequence is
given by v: the single Edema column's auc oracle returns v e in epoch e, so
the epoch's val score mean equals v e. -/
def seqCfg (n : Nat) (v : Nat → Option ℚ) : TrainConfig :=
  { numEpochs := n, LR0 := 1, weightDecay := 0, multiclass := false,
    valDs := oneLabelDs, evalScore := fun e _ => v e, trainLoss := fun _ => 1,
    modelAt := fun e => e, rngAt := fun _ => 0 }

/-- Validation scores 0.5, 0.5, 0.7, 0.6 for epochs 1-4. -/
def valSeqTie : Nat → Option ℚ := fun e =>
  if e = 1 then some (1 / 2)
  else if e = 2 then some (1 / 2)
  else if e = 3 then some (7 / 10)
  else some (3 / 5)

/-- Best at epoch 2 (0.6), no improvement afterwards. -/
def valSeqStall : Nat → Option ℚ := fun e =>
  if e = 1 then some (1 / 2)
  else if e = 2 then some (3 / 5)
  else some (2 / 5)

/-- Best at epoch 2 (0.6), then a new best at epoch 4 (0.7). -/
def valSeqRecover : Nat → Option ℚ := fun e =>
  if e = 1 then some (1 / 2)
  else if e = 2 then some (3 / 5)
  else if e = 4 then some (7 / 10)
  else some (2 / 5)

/-- A best score (0.7) at epoch 1 followed by a worse epoch (0.5). -/
def valSeqDrop : Nat → Option ℚ := fun e =>
  if e = 1 then some (7 / 10) else some (1 / 2)

/-- The first epoch's trace for a seqCfg run whose epoch-1 score is 0.5. -/
def traceE1 : EpochTrace :=
  { epoch := 1, bestBefore := 0, lastValAcc := some (1 / 2), decayed := false,
    newBest := true, bestEpochAfter := 1, bestValAfter := 1 / 2, lrAfter := 1 }

/-- A 17-sample dataset: one more sample than the batch size. -/
def ds17 : EvalDataset :=
  { size := 17, idOf := fun n => toString n, predLabels := ["Edema"], outDim := 1,
    probs := fun _ _ => 1 / 2, trueVal := fun _ _ => 1 }

/-- A two-label dataset for the metric-failure scenario. -/
def dsTwoLabel : EvalDataset :=
  { size := 1, idOf := fun _ => "img0", predLabels := ["Edema", "Pneumonia"],
    outDim := 2, probs := fun _ _ => 1 / 2, trueVal := fun _ _ => 1 }

/-- A per-column metric oracle that raises on the Edema column (e.g. only one
class present in its truths) and succeeds on every other column. -/
def scoreFailEdema : String → Option ℚ := fun c =>
  if c = "Edema" then none else some (3 / 4)

/-- A baseline train_cnn configuration with a valid orientation, a free
results directory and an available GPU. -/
def cnnBase : CnnConfig :=
  { orientFlag := "all", resultsExists := false, useGpu := true,
    checkpointFile := none, LR := 1 / 100, WD := 0, valDs := oneLabelDs,
    evalScore := fun _ _ => none, trainLoss := fun _ => 1,
    modelAt := fun e => e, rngAt := fun _ => 0 }

/-- A stored checkpoint whose recorded learning rate (55) differs from the
base learning rate handed to train_cnn. -/
def ckStored : CheckpointState :=
  { model := 7, last_train_loss := 1, best_val_acc := some (1 / 2),
    metricRows := [], epoch := 3, best_epoch := 2, rng_state := 0, LR := 55,
    WD := 9 }

/- ### Batching lemmas: the batched index pass enumerates 0, ..., size-1. -/

theorem numBatches_step (n : Nat) (h : 0 < n) :
    numBatches n BATCH_SIZE = numBatches (n - BATCH_SIZE) BATCH_SIZE + 1 := by
  unfold numBatches BATCH_SIZE
  omega

theorem batchedIdx_step (n : Nat) (h : 0 < n) :
    batchedIdx n =
      List.range (min BATCH_SIZE n) ++ (batchedIdx (n - BATCH_SIZE)).map (fun j => BATCH_SIZE + j) := by
  unfold batchedIdx
  rw [numBatches_step n h, List.range_succ_eq_map, List.flatMap_cons, List.flatMap_map,
    List.map_flatMap]
  congr 1
  · have h0 : batchLen n BATCH_SIZE 0 = min BATCH_SIZE n := by
      unfold batchLen; omega
    rw [h0]
    have h1 : (fun j => BATCH_SIZE * 0 + j) = fun j : Nat => j := by
      funext j; omega
    rw [h1, List.map_id']
  · congr 1
    funext i
    rw [List.map_map]
    have h2 : batchLen n BATCH_SIZE (Nat.succ i) = batchLen (n - BATCH_SIZE) BATCH_SIZE i := by
      unfold batchLen BATCH_SIZE; omega
    have h3 : (fun j => BATCH_SIZE * Nat.succ i + j) =
        ((fun j => BATCH_SIZE + j) ∘ fun j => BATCH_SIZE * i + j) := by
      funext j
      show BATCH_SIZE * Nat.succ i + j = BATCH_SIZE + (BATCH_SIZE * i + j)
      unfold BATCH_SIZE
      omega
    rw [h2, h3]

/-- The batched prediction pass visits exactly the dataset indices
0, 1, ..., size - 1 in order, also when the final batch is partial. -/
theorem batchedIdx_eq_range (n : Nat) : batchedIdx n = List.range n := by
  induction n using Nat.strong_induction_on with
  | _ n IH =>
    by_cases hz : n = 0
    · subst hz; rfl
    · have hp : 0 < n := Nat.pos_of_ne_zero hz
      rw [batchedIdx_step n hp, IH (n - BATCH_SIZE) (by unfold BATCH_SIZE at *; omega)]
      by_cases hle : n ≤ BATCH_SIZE
      · have e1 : min BATCH_SIZE n = n := by omega
        have e2 : n - BATCH_SIZE = 0 := by omega
        rw [e1, e2]
        simp
      · have e1 : min BATCH_SIZE n = BATCH_SIZE := by omega
        have e3 : n = BATCH_SIZE + (n - BATCH_SIZE) := by omega
        rw [e1]
        conv_rhs => rw [e3]
        rw [List.range_add]


/- ### Field lemmas for one epoch step -/

theorem epochStep_trace_epoch (cfg : TrainConfig) (e : Nat) (s : TrainState) :
    (epochStep cfg e s).2.epoch = e := rfl

theorem epochStep_trace_bestBefore (cfg : TrainConfig) (e : Nat) (s : TrainState) :
    (epochStep cfg e s).2.bestBefore = s.best_val_acc := rfl

theorem epochStep_trace_lastValAcc (cfg : TrainConfig) (e : Nat) (s : TrainState) :
    (epochStep cfg e s).2.lastValAcc = meanDefined (epochEval cfg e) := rfl

theorem epochStep_trace_decayed (cfg : TrainConfig) (e : Nat) (s : TrainState) :
    (epochStep cfg e s).2.decayed = nanLt (meanDefined (epochEval cfg e)) s.best_val_acc := rfl

theorem epochStep_trace_newBest (cfg : TrainConfig) (e : Nat) (s : TrainState) :
    (epochStep cfg e s).2.newBest = nanGt (meanDefined (epochEval cfg e)) s.best_val_acc := rfl

theorem epochStep_trace_bestEpochAfter (cfg : TrainConfig) (e : Nat) (s : TrainState) :
    (epochStep cfg e s).2.bestEpochAfter = (epochStep cfg e s).1.best_epoch := rfl

theorem epochStep_state_best_epoch (cfg : TrainConfig) (e : Nat) (s : TrainState) :
    (epochStep cfg e s).1.best_epoch =
      if nanGt (meanDefined (epochEval cfg e)) s.best_val_acc then (e : Int)
      else s.best_epoch := rfl

theorem epochStep_state_best_val_acc (cfg : TrainConfig) (e : Nat) (s : TrainState) :
    (epochStep cfg e s).1.best_val_acc =
      if nanGt (meanDefined (epochEval cfg e)) s.best_val_acc then
        (meanDefined (epochEval cfg e)).getD s.best_val_acc
      else s.best_val_acc := rfl

theorem epochStep_state_checkpoints (cfg : TrainConfig) (e : Nat) (s : TrainState) :
    (epochStep cfg e s).1.checkpoints =
      s.checkpoints ++
        [{ model := cfg.modelAt e, last_train_loss := cfg.trainLoss e,
           best_val_acc := meanDefined (epochEval cfg e),
           metricRows := epochEval cfg e, epoch := e,
           best_epoch := (epochStep cfg e s).1.best_epoch,
           rng_state := cfg.rngAt e, LR := (epochStep cfg e s).1.LR,
           WD := cfg.weightDecay }] := rfl

/- ### Structural lemmas for the epoch loop -/

theorem loopAux_zero (cfg : TrainConfig) (e : Nat) (s : TrainState) :
    loopAux cfg 0 e s = (s, []) := rfl

theorem loopAux_succ (cfg : TrainConfig) (n e : Nat) (s : TrainState) :
    loopAux cfg (n + 1) e s =
      if 3 ≤ (e : Int) - (epochStep cfg e s).1.best_epoch then
        ((epochStep cfg e s).1, [(epochStep cfg e s).2])
      else
        ((loopAux cfg n (e + 1) (epochStep cfg e s).1).1,
          (epochStep cfg e s).2 :: (loopAux cfg n (e + 1) (epochStep cfg e s).1).2) := rfl

theorem loopAux_len_le (cfg : TrainConfig) :
    ∀ n e s, (loopAux cfg n e s).2.length ≤ n := by
  intro n
  induction n with
  | zero => intro e s; simp [loopAux_zero]
  | succ n IH =>
    intro e s
    rw [loopAux_succ]
    by_cases hc : 3 ≤ (e : Int) - (epochStep cfg e s).1.best_epoch
    · rw [if_pos hc]; simp
    · rw [if_neg hc]
      simpa using IH (e + 1) (epochStep cfg e s).1

theorem loopAux_len_pos (cfg : TrainConfig) :
    ∀ n e s, 0 < n → 0 < (loopAux cfg n e s).2.length := by
  intro n
  cases n with
  | zero => intro e s h; omega
  | succ n =>
    intro e s _
    rw [loopAux_succ]
    by_cases hc : 3 ≤ (e : Int) - (epochStep cfg e s).1.best_epoch
    · rw [if_pos hc]; simp
    · rw [if_neg hc]; simp

theorem loopAux_trace_epochs (cfg : TrainConfig) :
    ∀ n e s, (loopAux cfg n e s).2.map (fun t => t.epoch) =
      (List.range (loopAux cfg n e s).2.length).map (fun i => e + i) := by
  intro n
  induction n with
  | zero => intro e s; rw [loopAux_zero]; rfl
  | succ n IH =>
    intro e s
    rw [loopAux_succ]
    by_cases hc : 3 ≤ (e : Int) - (epochStep cfg e s).1.best_epoch
    · rw [if_pos hc]
      simp [epochStep_trace_epoch, List.range_succ]
    · rw [if_neg hc]
      have htail : ∀ L : Nat, List.map (fun i => e + 1 + i) (List.range L) =
          List.map ((fun i => e + i) ∘ Nat.succ) (List.range L) := by
        intro L
        apply List.map_congr_left
        intro i _
        simp only [Function.comp_apply]
        omega
      simp only [List.map_cons, List.length_cons, epochStep_trace_epoch,
        IH (e + 1) (epochStep cfg e s).1, List.range_succ_eq_map, List.map_map, htail]
      simp

theorem loopAux_checkpoint_epochs (cfg : TrainConfig) :
    ∀ n e s, (loopAux cfg n e s).1.checkpoints.map (fun ck => ck.epoch) =
      s.checkpoints.map (fun ck => ck.epoch) ++
        (List.range (loopAux cfg n e s).2.length).map (fun i => e + i) := by
  intro n
  induction n with
  | zero => intro e s; rw [loopAux_zero]; simp
  | succ n IH =>
    intro e s
    rw [loopAux_succ]
    by_cases hc : 3 ≤ (e : Int) - (epochStep cfg e s).1.best_epoch
    · rw [if_pos hc]
      simp [epochStep_state_checkpoints, List.range_succ]
    · rw [if_neg hc]
      have htail : ∀ L : Nat, List.map (fun i => e + 1 + i) (List.range L) =
          List.map ((fun i => e + i) ∘ Nat.succ) (List.range L) := by
        intro L
        apply List.map_congr_left
        intro i _
        simp only [Function.comp_apply]
        omega
      simp only [List.length_cons, IH (e + 1) (epochStep cfg e s).1,
        epochStep_state_checkpoints, List.map_append, List.map_cons, List.map_nil,
        List.range_succ_eq_map, List.map_map, List.append_assoc, List.singleton_append,
        List.cons_append, List.nil_append, htail]
      simp

theorem loopAux_stop (cfg : TrainConfig) :
    ∀ n e s, (loopAux cfg n e s).2.length < n →
      ∃ t, (loopAux cfg n e s).2.getLast? = some t ∧
        3 ≤ (t.epoch : Int) - t.bestEpochAfter := by
  intro n
  induction n with
  | zero => intro e s h; omega
  | succ n IH =>
    intro e s h
    rw [loopAux_succ] at h ⊢
    by_cases hc : 3 ≤ (e : Int) - (epochStep cfg e s).1.best_epoch
    · rw [if_pos hc]
      refine ⟨(epochStep cfg e s).2, by simp, ?_⟩
      rw [epochStep_trace_epoch, epochStep_trace_bestEpochAfter]
      exact hc
    · rw [if_neg hc] at h ⊢
      simp only [List.length_cons] at h
      have h2 : (loopAux cfg n (e + 1) (epochStep cfg e s).1).2.length < n := by omega
      obtain ⟨t, hl, hcond⟩ := IH (e + 1) (epochStep cfg e s).1 h2
      refine ⟨t, ?_, hcond⟩
      cases hrest : (loopAux cfg n (e + 1) (epochStep cfg e s).1).2 with
      | nil => rw [hrest] at hl; simp at hl
      | cons b l =>
        rw [hrest] at hl
        show ((epochStep cfg e s).2 :: b :: l).getLast? = some t
        rw [List.getLast?_cons_cons]
        exact hl

theorem loopAux_no_early_stop (cfg : TrainConfig) :
    ∀ n e s, ∀ t ∈ (loopAux cfg n e s).2.dropLast,
      ¬ 3 ≤ (t.epoch : Int) - t.bestEpochAfter := by
  intro n
  induction n with
  | zero => intro e s t ht; rw [loopAux_zero] at ht; simp at ht
  | succ n IH =>
    intro e s t ht
    rw [loopAux_succ] at ht
    by_cases hc : 3 ≤ (e : Int) - (epochStep cfg e s).1.best_epoch
    · rw [if_pos hc] at ht
      simp at ht
    · rw [if_neg hc] at ht
      cases hrest : (loopAux cfg n (e + 1) (epochStep cfg e s).1).2 with
      | nil => rw [hrest] at ht; simp at ht
      | cons b l =>
        rw [hrest, List.dropLast_cons₂] at ht
        rcases List.mem_cons.mp ht with ht1 | ht2
        · subst ht1
          rw [epochStep_trace_epoch, epochStep_trace_bestEpochAfter]
          exact hc
        · exact IH (e + 1) (epochStep cfg e s).1 t (by rw [hrest]; exact ht2)

theorem loopAux_trace_mem (cfg : TrainConfig) :
    ∀ n e s, ∀ t ∈ (loopAux cfg n e s).2,
      ∃ e2 s2, t = (epochStep cfg e2 s2).2 := by
  intro n
  induction n with
  | zero => intro e s t ht; rw [loopAux_zero] at ht; simp at ht
  | succ n IH =>
    intro e s t ht
    rw [loopAux_succ] at ht
    by_cases hc : 3 ≤ (e : Int) - (epochStep cfg e s).1.best_epoch
    · rw [if_pos hc] at ht
      simp at ht
      exact ⟨e, s, ht⟩
    · rw [if_neg hc] at ht
      rcases List.mem_cons.mp ht with ht1 | ht2
      · exact ⟨e, s, ht1⟩
      · exact IH (e + 1) (epochStep cfg e s).1 t ht2

/- ### Helper lemmas about the evaluation pass -/

theorem evalPreds_ids (ds : EvalDataset) (mc : Bool) :
    (evalPreds ds mc).map (fun r => r.imageIndex) = (List.range ds.size).map ds.idOf := by
  unfold evalPreds
  rw [batchedIdx_eq_range, List.map_map]
  rfl

theorem evalTruths_ids (ds : EvalDataset) (mc : Bool) :
    (evalTruths ds mc).map (fun r => r.imageIndex) = (List.range ds.size).map ds.idOf := by
  unfold evalTruths
  rw [batchedIdx_eq_range, List.map_map]
  rfl

theorem evalPreds_length (ds : EvalDataset) (mc : Bool) :
    (evalPreds ds mc).length = ds.size := by
  unfold evalPreds
  rw [batchedIdx_eq_range]
  simp

theorem evalTruths_length (ds : EvalDataset) (mc : Bool) :
    (evalTruths ds mc).length = ds.size := by
  unfold evalTruths
  rw [batchedIdx_eq_range]
  simp

theorem make_pred_auc (mc : Bool) (ds : EvalDataset) (score : String → Option ℚ) :
    make_pred_multilabel ("auc") mc ds score =
      Except.ok { warned := false, preds := evalPreds ds mc,
                  truths := evalTruths ds mc, predsCsvWritten := true,
                  metricRows := some (aucRows (keptColumns ds mc) score),
                  retVal := some (evalPreds ds mc, aucRows (keptColumns ds mc) score) } := rfl

/- ### C5: record count and identifier alignment of every evaluation run -/

/-- C5: for every evaluation run, the produced prediction and truth sequences
each have one record per dataset sample, and the i-th prediction and i-th
truth record carry the same identifier, the dataset's i-th index; moreover,
for a 17-sample dataset with batch size 16, exactly 17 aligned records are
produced and the final record's identifier is the dataset's last index. -/
theorem C5_eval_alignment :
    (∀ (metric : String) (mc : Bool) (ds : EvalDataset) (score : String → Option ℚ)
        (out : EvalOutput),
      make_pred_multilabel metric mc ds score = Except.ok out →
      out.preds.length = ds.size ∧ out.truths.length = ds.size ∧
      out.preds.map (fun r => r.imageIndex) = (List.range ds.size).map ds.idOf ∧
      out.truths.map (fun r => r.imageIndex) = (List.range ds.size).map ds.idOf) ∧
    (evalPreds ds17 false).length = 17 ∧ (evalTruths ds17 false).length = 17 ∧
    ((evalPreds ds17 false).getLast?.map (fun r => r.imageIndex)) = some (ds17.idOf 16) ∧
    ((evalTruths ds17 false).getLast?.map (fun r => r.imageIndex)) = some (ds17.idOf 16) := by
  refine ⟨?_, by decide, by decide, by decide, by decide⟩
  intro metric mc ds score out h
  have hfields : out.preds = evalPreds ds mc ∧ out.truths = evalTruths ds mc := by
    unfold make_pred_multilabel at h
    by_cases h1 : metric = "auc"
    · rw [if_pos h1] at h
      cases h
      exact ⟨rfl, rfl⟩
    · rw [if_neg h1] at h
      by_cases h2 : metric = "f1"
      · rw [if_pos h2] at h
        cases hf : f1Rows (keptColumns ds mc) score with
        | error c => rw [hf] at h; cases h
        | ok rows =>
          rw [hf] at h
          cases h
          exact ⟨rfl, rfl⟩
      · rw [if_neg h2] at h
        cases h
        exact ⟨rfl, rfl⟩
  rw [hfields.1, hfields.2]
  exact ⟨evalPreds_length ds mc, evalTruths_length ds mc,
    evalPreds_ids ds mc, evalTruths_ids ds mc⟩

/-- Witness for C5 at a concrete run on the 17-sample dataset. -/
theorem C5_eval_alignment_witness :
    make_pred_multilabel ("auc") false ds17 (fun _ => none) =
      Except.ok { warned := false, preds := evalPreds ds17 false,
                  truths := evalTruths ds17 false, predsCsvWritten := true,
                  metricRows := some [("Edema", none)],
                  retVal := some (evalPreds ds17 false, [("Edema", none)]) } ∧
    (evalPreds ds17 false).length = 17 ∧ (evalTruths ds17 false).length = 17 := by
  have hok : make_pred_multilabel ("auc") false ds17 (fun _ => none) =
      Except.ok { warned := false, preds := evalPreds ds17 false,
                  truths := evalTruths ds17 false, predsCsvWritten := true,
                  metricRows := some [("Edema", none)],
                  retVal := some (evalPreds ds17 false, [("Edema", none)]) } := rfl
  have h := C5_eval_alignment.1 ("auc") false ds17 (fun _ => none) _ hok
  exact ⟨hok, by rw [h.1]; rfl, by rw [h.2.1]; rfl⟩

/- ### C10: unrecognised metric kinds -/

/-- C10: for every metric outside {auc, f1}, make_pred_multilabel prints the
warning, still runs the full batched prediction pass (one record per sample),
writes the predictions table, computes no per-label metric rows, and returns
None. -/
theorem C10_invalid_metric (metric : String) (mc : Bool) (ds : EvalDataset)
    (score : String → Option ℚ) (h1 : metric ≠ "auc") (h2 : metric ≠ "f1") :
    make_pred_multilabel metric mc ds score =
      Except.ok { warned := true, preds := evalPreds ds mc,
                  truths := evalTruths ds mc, predsCsvWritten := true,
                  metricRows := none, retVal := none } ∧
    (evalPreds ds mc).length = ds.size := by
  constructor
  · unfold make_pred_multilabel
    rw [if_neg h1, if_neg h2]
    have hw : decide (metric ≠ "auc" ∧ metric ≠ "f1") = true := by
      simp [h1, h2]
    rw [hw]
  · exact evalPreds_length ds mc

/-- Witness for C10 at the concrete metric string "accuracy". -/
theorem C10_invalid_metric_witness :
    make_pred_multilabel ("accuracy") false oneLabelDs (fun _ => some (1 / 2)) =
      Except.ok { warned := true, preds := evalPreds oneLabelDs false,
                  truths := evalTruths oneLabelDs false, predsCsvWritten := true,
                  metricRows := none, retVal := none } ∧
    (evalPreds oneLabelDs false).length = oneLabelDs.size :=
  C10_invalid_metric ("accuracy") false oneLabelDs (fun _ => some (1 / 2))
    (by decide) (by decide)

/- ### C4: per-label metric failure policy -/

/-- C4 (refuting the claim for f1): with the Edema column's metric raising,
the auc path records NaN for Edema and continues to Pneumonia, but the f1
path aborts the whole aggregation with the uncaught exception, because
eval_model.py line 152 calls sklm.f1_score outside the try block; so the
NaN-and-continue policy holds for auc only, not for f1 as the claim states. -/
theorem C4_f1_failure_aborts :
    make_pred_multilabel ("f1") false dsTwoLabel scoreFailEdema =
      Except.error ("Edema") ∧
    (∃ out, make_pred_multilabel ("auc") false dsTwoLabel scoreFailEdema =
        Except.ok out ∧
      out.metricRows = some [("Edema", none), ("Pneumonia", some (3 / 4))] ∧
      out.retVal = some (out.preds, [("Edema", none), ("Pneumonia", some (3 / 4))])) := by
  refine ⟨rfl, ⟨_, rfl, rfl, rfl⟩⟩

/- ### Helper lemmas about the training loop -/

theorem nanLt_nanGt_mutex (x : Option ℚ) (b : ℚ) :
    ¬ (nanLt x b = true ∧ nanGt x b = true) := by
  cases x with
  | none => simp [nanLt, nanGt]
  | some v =>
    simp only [nanLt, nanGt, decide_eq_true_eq]
    rintro ⟨h1, h2⟩
    exact lt_irrefl v (h1.trans h2)

theorem nanLt_self (b : ℚ) : nanLt (some b) b = false := by
  simp [nanLt]

theorem nanGt_self (b : ℚ) : nanGt (some b) b = false := by
  simp [nanGt]

theorem epochEval_eq (cfg : TrainConfig) (e : Nat) :
    epochEval cfg e = aucRows (keptColumns cfg.valDs cfg.multiclass) (cfg.evalScore e) := rfl

theorem train_model_traces (cfg : TrainConfig) :
    (train_model cfg).traces = (loopAux cfg cfg.numEpochs 1 (initState cfg)).2 := rfl

theorem train_model_finalState (cfg : TrainConfig) :
    (train_model cfg).finalState = (loopAux cfg cfg.numEpochs 1 (initState cfg)).1 := rfl

theorem train_model_loadedEpoch (cfg : TrainConfig) :
    (train_model cfg).loadedEpoch =
      (loopAux cfg cfg.numEpochs 1 (initState cfg)).1.best_epoch := rfl

theorem train_model_loadOk (cfg : TrainConfig) :
    (train_model cfg).loadOk =
      (loopAux cfg cfg.numEpochs 1 (initState cfg)).1.checkpoints.any
        (fun ck => decide ((ck.epoch : Int) =
          (loopAux cfg cfg.numEpochs 1 (initState cfg)).1.best_epoch)) := rfl

theorem meanDefined_nil (rows : List (String × Option ℚ))
    (h : definedVals rows = []) : meanDefined rows = none := by
  unfold meanDefined
  rw [h]
  rfl

theorem meanDefined_ne_nil (rows : List (String × Option ℚ))
    (h : definedVals rows ≠ []) :
    meanDefined rows =
      some ((definedVals rows).sum / ((definedVals rows).length : ℚ)) := by
  unfold meanDefined
  rw [if_neg (by simpa using h)]

/- In the remaining proofs, concrete runs are evaluated by the kernel; the
Batteries rational-arithmetic definitions are restored to semireducible so
that those evaluations can proceed. -/
section ConcreteRuns

attribute [local semireducible] Rat.mul Rat.inv Rat.add Rat.sub

/- ### C1: decay and best-update classification -/

/-- C1: every epoch's decay branch runs exactly when its val score is
strictly below the best score tracked before the epoch, and the best update
runs exactly when the score is strictly above that same prior baseline, so
the two never fire together and a tie fires neither; and on the score
sequence 0.5, 0.5, 0.7, 0.6 from best 0 the four epochs classify as
new-best, neither, new-best, decay-only. -/
theorem C1_decay_best_classification :
    (∀ (cfg : TrainConfig), ∀ t ∈ (train_model cfg).traces,
      t.decayed = nanLt t.lastValAcc t.bestBefore ∧
      t.newBest = nanGt t.lastValAcc t.bestBefore ∧
      ¬ (t.decayed = true ∧ t.newBest = true) ∧
      (t.lastValAcc = some t.bestBefore →
        t.decayed = false ∧ t.newBest = false)) ∧
    (train_model (seqCfg 4 valSeqTie)).traces.map
        (fun t => (t.epoch, t.decayed, t.newBest, t.bestEpochAfter)) =
      [(1, false, true, 1), (2, false, false, 1), (3, false, true, 3),
       (4, true, false, 3)] := by
  constructor
  · intro cfg t ht
    rw [train_model_traces] at ht
    obtain ⟨e2, s2, rfl⟩ :=
      loopAux_trace_mem cfg cfg.numEpochs 1 (initState cfg) t ht
    refine ⟨rfl, rfl, ?_, ?_⟩
    · rw [epochStep_trace_decayed, epochStep_trace_newBest]
      exact nanLt_nanGt_mutex _ _
    · intro htie
      rw [epochStep_trace_lastValAcc, epochStep_trace_bestBefore] at htie
      constructor
      · rw [epochStep_trace_decayed, htie, nanLt_self]
      · rw [epochStep_trace_newBest, htie, nanGt_self]
  · decide

/-- Witness for C1: the first epoch's trace of the 0.5, 0.5, 0.7, 0.6 run. -/
theorem C1_decay_best_classification_witness :
    traceE1 ∈ (train_model (seqCfg 4 valSeqTie)).traces ∧
    traceE1.decayed = nanLt traceE1.lastValAcc traceE1.bestBefore ∧
    traceE1.newBest = nanGt traceE1.lastValAcc traceE1.bestBefore := by
  have hm : traceE1 ∈ (train_model (seqCfg 4 valSeqTie)).traces := by decide
  have h := C1_decay_best_classification.1 (seqCfg 4 valSeqTie) traceE1 hm
  exact ⟨hm, h.1, h.2.1⟩

/- ### C2: early-stopping characterization -/

/-- C2: the epoch loop runs at most max_epochs epochs; when it runs fewer,
the final epoch is exactly the first at which epoch - best_epoch >= 3 held at
epoch end (no earlier epoch satisfied it); the executed epochs are the
contiguous range starting at 1.  Concretely, with the best at epoch 2 and no
later improvement training stops exactly at epoch 5, and with a new best at
epoch 4 it does not stop at epoch 5 (it runs 7 epochs). -/
theorem C2_early_stopping :
    (∀ cfg : TrainConfig,
      (train_model cfg).traces.length ≤ cfg.numEpochs ∧
      ((train_model cfg).traces.length < cfg.numEpochs →
        ∃ t, (train_model cfg).traces.getLast? = some t ∧
          3 ≤ (t.epoch : Int) - t.bestEpochAfter) ∧
      (∀ t ∈ (train_model cfg).traces.dropLast,
        ¬ 3 ≤ (t.epoch : Int) - t.bestEpochAfter) ∧
      (train_model cfg).traces.map (fun t => t.epoch) =
        (List.range (train_model cfg).traces.length).map (fun i => 1 + i)) ∧
    (train_model (seqCfg 10 valSeqStall)).traces.length = 5 ∧
    (train_model (seqCfg 10 valSeqStall)).finalState.best_epoch = 2 ∧
    (train_model (seqCfg 10 valSeqRecover)).traces.length = 7 ∧
    (train_model (seqCfg 10 valSeqRecover)).finalState.best_epoch = 4 := by
  refine ⟨?_, by decide, by decide, by decide, by decide⟩
  intro cfg
  rw [train_model_traces]
  exact ⟨loopAux_len_le cfg cfg.numEpochs 1 (initState cfg),
    loopAux_stop cfg cfg.numEpochs 1 (initState cfg),
    loopAux_no_early_stop cfg cfg.numEpochs 1 (initState cfg),
    loopAux_trace_epochs cfg cfg.numEpochs 1 (initState cfg)⟩

/-- Witness for C2: the stalled run stops with its last epoch, epoch 5,
satisfying the stop condition. -/
theorem C2_early_stopping_witness :
    ∃ t, (train_model (seqCfg 10 valSeqStall)).traces.getLast? = some t ∧
      3 ≤ (t.epoch : Int) - t.bestEpochAfter :=
  ((C2_early_stopping.1 (seqCfg 10 valSeqStall)).2.1) (by decide)

/- ### C3: one checkpoint per epoch; the best-score field it stores -/

/-- C3 (checkpoint cadence confirmed, stored score refuted): every run
persists exactly one checkpoint per completed epoch, unconditionally, the
checkpoint of epoch i being the i-th; but the state dict's best_val_acc slot
receives the epoch's own val score, not the best so far: in the run with
scores 0.7, 0.5 the epoch-2 checkpoint stores 0.5 while the best validation
score so far is 0.7. -/
theorem C3_checkpoint_every_epoch :
    (∀ cfg : TrainConfig,
      (train_model cfg).finalState.checkpoints.map (fun ck => ck.epoch) =
        (List.range (train_model cfg).traces.length).map (fun i => 1 + i)) ∧
    (train_model (seqCfg 2 valSeqDrop)).finalState.checkpoints.map
        (fun ck => ck.best_val_acc) = [some (7 / 10), some (1 / 2)] ∧
    (train_model (seqCfg 2 valSeqDrop)).finalState.best_val_acc = 7 / 10 := by
  refine ⟨?_, by decide, by decide⟩
  intro cfg
  rw [train_model_finalState, train_model_traces]
  have h := loopAux_checkpoint_epochs cfg cfg.numEpochs 1 (initState cfg)
  simpa using h

/- ### C6: the val score is the mean of the defined auc entries -/

/-- C6: every epoch's val score, the value driving the decay and
best-tracking decisions, equals the NaN-aware mean of the metric table
returned by make_pred_multilabel with metric auc on the validation data:
the arithmetic mean of the defined (non-NaN) per-label values when at least
one is defined, NaN when none is. -/
theorem C6_val_score_is_mean :
    ∀ cfg : TrainConfig, ∀ t ∈ (train_model cfg).traces,
      ∃ out, make_pred_multilabel ("auc") cfg.multiclass cfg.valDs
          (cfg.evalScore t.epoch) = Except.ok out ∧
        ∃ rows, out.retVal = some (out.preds, rows) ∧
          t.lastValAcc = meanDefined rows ∧
          (definedVals rows = [] → t.lastValAcc = none) ∧
          (definedVals rows ≠ [] →
            t.lastValAcc =
              some ((definedVals rows).sum / ((definedVals rows).length : ℚ))) := by
  intro cfg t ht
  rw [train_model_traces] at ht
  obtain ⟨e2, s2, rfl⟩ := loopAux_trace_mem cfg cfg.numEpochs 1 (initState cfg) t ht
  rw [make_pred_auc]
  refine ⟨_, rfl, epochEval cfg e2, ?_, ?_, ?_, ?_⟩
  · rw [epochEval_eq, epochStep_trace_epoch]
  · rw [epochStep_trace_lastValAcc]
  · intro h
    rw [epochStep_trace_lastValAcc, meanDefined_nil _ h]
  · intro h
    rw [epochStep_trace_lastValAcc, meanDefined_ne_nil _ h]

/-- Witness for C6 at the one-epoch run with score 0.5. -/
theorem C6_val_score_is_mean_witness :
    traceE1 ∈ (train_model (seqCfg 1 (fun _ => some (1 / 2)))).traces ∧
    (∃ out, make_pred_multilabel ("auc") (seqCfg 1 (fun _ => some (1 / 2))).multiclass
        (seqCfg 1 (fun _ => some (1 / 2))).valDs
        ((seqCfg 1 (fun _ => some (1 / 2))).evalScore traceE1.epoch) = Except.ok out ∧
      ∃ rows, out.retVal = some (out.preds, rows) ∧
        traceE1.lastValAcc = meanDefined rows ∧
        (definedVals rows = [] → traceE1.lastValAcc = none) ∧
        (definedVals rows ≠ [] →
          traceE1.lastValAcc =
            some ((definedVals rows).sum / ((definedVals rows).length : ℚ)))) := by
  have hm : traceE1 ∈ (train_model (seqCfg 1 (fun _ => some (1 / 2)))).traces := by
    decide
  exact ⟨hm, C6_val_score_is_mean (seqCfg 1 (fun _ => some (1 / 2))) traceE1 hm⟩

/- ### C9: the -1 sentinel and the two-epoch break -/

/-- C9: when no epoch's val score is strictly greater than 0 (in particular
when every score is NaN), best_epoch keeps its sentinel -1, the stop
condition epoch - best_epoch >= 3 already holds at epoch 2, the loop runs
exactly two epochs, and the terminal step then loads
results/checkpoint_-1, a file no epoch ever wrote. -/
theorem C9_sentinel_early_break (cfg : TrainConfig)
    (h1 : 2 ≤ cfg.numEpochs)
    (h2 : ∀ e, nanGt (meanDefined (epochEval cfg e)) 0 = false) :
    (train_model cfg).traces.length = 2 ∧
    (train_model cfg).finalState.best_epoch = -1 ∧
    (train_model cfg).loadedEpoch = -1 ∧
    (train_model cfg).loadOk = false := by
  obtain ⟨m, hm⟩ : ∃ m, cfg.numEpochs = m + 2 := ⟨cfg.numEpochs - 2, by omega⟩
  have hi1 : (initState cfg).best_val_acc = 0 := rfl
  have hi2 : (initState cfg).best_epoch = -1 := rfl
  have hb1 : (epochStep cfg 1 (initState cfg)).1.best_epoch = -1 := by
    rw [epochStep_state_best_epoch, hi1, h2 1, hi2]
    simp
  have hv1 : (epochStep cfg 1 (initState cfg)).1.best_val_acc = 0 := by
    rw [epochStep_state_best_val_acc, hi1, h2 1]
    simp
  have hb2 :
      (epochStep cfg 2 (epochStep cfg 1 (initState cfg)).1).1.best_epoch = -1 := by
    rw [epochStep_state_best_epoch, hv1, h2 2, hb1]
    simp
  have hc1 : ¬ 3 ≤ ((1 : Nat) : Int) - (epochStep cfg 1 (initState cfg)).1.best_epoch := by
    rw [hb1]; decide
  have hc2 : 3 ≤ ((2 : Nat) : Int) -
      (epochStep cfg 2 (epochStep cfg 1 (initState cfg)).1).1.best_epoch := by
    rw [hb2]; decide
  have hloop : loopAux cfg cfg.numEpochs 1 (initState cfg) =
      ((epochStep cfg 2 (epochStep cfg 1 (initState cfg)).1).1,
       [(epochStep cfg 1 (initState cfg)).2,
        (epochStep cfg 2 (epochStep cfg 1 (initState cfg)).1).2]) := by
    rw [hm, loopAux_succ, if_neg hc1, loopAux_succ, if_pos hc2]
  refine ⟨?_, ?_, ?_, ?_⟩
  · rw [train_model_traces, hloop]
    rfl
  · rw [train_model_finalState, hloop]
    exact hb2
  · rw [train_model_loadedEpoch, hloop]
    exact hb2
  · rw [train_model_loadOk, hloop]
    rw [hb2, epochStep_state_checkpoints, epochStep_state_checkpoints]
    simp [initState]

/-- Witness for C9: five admitted epochs, every epoch's metric table all-NaN. -/
theorem C9_sentinel_early_break_witness :
    (train_model (seqCfg 5 (fun _ => none))).traces.length = 2 ∧
    (train_model (seqCfg 5 (fun _ => none))).finalState.best_epoch = -1 ∧
    (train_model (seqCfg 5 (fun _ => none))).loadedEpoch = -1 ∧
    (train_model (seqCfg 5 (fun _ => none))).loadOk = false :=
  C9_sentinel_early_break (seqCfg 5 (fun _ => none)) (by decide) (fun _ => rfl)

/- ### C7: configuration errors end the run before training -/

/-- C7: an invalid orientation selector, an already-present results directory
and a missing GPU each end the train_cnn call with the corresponding
configuration error: no epoch runs, no network or optimizer is built, and an
existing results directory is never removed or overwritten (in every run,
including successful ones, the directory-removal branch is dead).  The
orientation and results-directory checks precede dataset construction; the
GPU check runs after the datasets are built but still before the model is
constructed and before any epoch begins. -/
theorem C7_prerun_config_errors :
    (∀ cfg : CnnConfig, (train_cnn cfg).resultsDirRemoved = false) ∧
    (∀ cfg : CnnConfig, cfg.orientFlag ∉ validOrients →
      train_cnn cfg =
        { outcome := CnnOutcome.invalidOrient, resultsDirRemoved := false,
          datasetsBuilt := false, model := none, criterion := none,
          optimizer := none, trainRun := none } ∧
      epochsRun (train_cnn cfg) = 0) ∧
    (∀ cfg : CnnConfig, cfg.orientFlag ∈ validOrients →
      cfg.resultsExists = true →
      train_cnn cfg =
        { outcome := CnnOutcome.resultsInWay, resultsDirRemoved := false,
          datasetsBuilt := false, model := none, criterion := none,
          optimizer := none, trainRun := none } ∧
      epochsRun (train_cnn cfg) = 0) ∧
    (∀ cfg : CnnConfig, cfg.orientFlag ∈ validOrients →
      cfg.resultsExists = false → cfg.useGpu = false →
      train_cnn cfg =
        { outcome := CnnOutcome.noGpu, resultsDirRemoved := false,
          datasetsBuilt := true, model := none, criterion := none,
          optimizer := none, trainRun := none } ∧
      epochsRun (train_cnn cfg) = 0) := by
  refine ⟨?_, ?_, ?_, ?_⟩
  · intro cfg
    unfold train_cnn
    split
    · rfl
    · split
      · rfl
      · split
        · rfl
        · rfl
  · intro cfg h
    constructor
    · simp [train_cnn, h]
    · simp [train_cnn, epochsRun, h]
  · intro cfg h1 h2
    constructor
    · simp [train_cnn, h1, h2]
    · simp [train_cnn, epochsRun, h1, h2]
  · intro cfg h1 h2 h3
    constructor
    · simp [train_cnn, h1, h2, h3]
    · simp [train_cnn, epochsRun, h1, h2, h3]

/-- Witness for C7 at three concrete misconfigurations of the baseline. -/
theorem C7_prerun_config_errors_witness :
    (train_cnn { cnnBase with orientFlag := "sideways" }).outcome =
      CnnOutcome.invalidOrient ∧
    epochsRun (train_cnn { cnnBase with orientFlag := "sideways" }) = 0 ∧
    (train_cnn { cnnBase with resultsExists := true }).outcome =
      CnnOutcome.resultsInWay ∧
    epochsRun (train_cnn { cnnBase with resultsExists := true }) = 0 ∧
    (train_cnn { cnnBase with useGpu := false }).outcome = CnnOutcome.noGpu ∧
    (train_cnn { cnnBase with useGpu := false }).trainRun = none ∧
    (train_cnn { cnnBase with useGpu := false }).model = none := by
  have ha := C7_prerun_config_errors.2.1 { cnnBase with orientFlag := "sideways" }
    (by decide)
  have hb := C7_prerun_config_errors.2.2.1 { cnnBase with resultsExists := true }
    (by decide) rfl
  have hd := C7_prerun_config_errors.2.2.2 { cnnBase with useGpu := false }
    (by decide) rfl rfl
  exact ⟨by rw [ha.1], ha.2, by rw [hb.1], hb.2, by rw [hd.1], by rw [hd.1],
    by rw [hd.1]⟩

/- ### C8: resuming loads the stored model but rebuilds the optimizer -/

/-- C8: when a checkpoint path is supplied, the checkpoint's stored model is
used instead of a fresh network (and a fresh network with the task head is
built when none is); in both cases the Adam optimizer is built anew from the
provided base learning rate and weight decay with betas (0.9, 0.999) and
eps 1e-08 — no learning-rate or optimizer state is taken from the
checkpoint. -/
theorem C8_resume_model_fresh_optimizer :
    ∀ cfg : CnnConfig,
      cfg.orientFlag ∈ validOrients → cfg.resultsExists = false →
      cfg.useGpu = true →
      (∀ ck, cfg.checkpointFile = some ck →
        (train_cnn cfg).model = some (ModelChoice.stored ck.model)) ∧
      (cfg.checkpointFile = none →
        (train_cnn cfg).model =
          some (if cfg.orientFlag ≠ "trainer" then ModelChoice.fresh HeadKind.sigmoid5
                else ModelChoice.fresh HeadKind.softmax3)) ∧
      (train_cnn cfg).optimizer =
        some { lr := cfg.LR, beta1 := 9 / 10, beta2 := 999 / 1000,
               eps := 1 / 100000000, weight_decay := cfg.WD } := by
  intro cfg h1 h2 h3
  refine ⟨?_, ?_, ?_⟩
  · intro ck hck
    simp [train_cnn, h1, h2, h3, hck]
  · intro hck
    simp [train_cnn, h1, h2, h3, hck]
  · simp [train_cnn, h1, h2, h3]

/-- Witness for C8: resuming from a checkpoint whose recorded learning rate
is 55 still yields an optimizer built from the base rate 1/100. -/
theorem C8_resume_model_fresh_optimizer_witness :
    (train_cnn { cnnBase with checkpointFile := some ckStored }).model =
      some (ModelChoice.stored 7) ∧
    (train_cnn { cnnBase with checkpointFile := some ckStored }).optimizer =
      some { lr := 1 / 100, beta1 := 9 / 10, beta2 := 999 / 1000,
             eps := 1 / 100000000, weight_decay := 0 } ∧
    ckStored.LR = 55 := by
  have h := C8_resume_model_fresh_optimizer
    { cnnBase with checkpointFile := some ckStored } (by decide) rfl rfl
  exact ⟨h.1 ckStored rfl, h.2.2, rfl⟩

end ConcreteRuns
